import Mathlib

/-!
Verification of the GeneSphere mutation-ingestion pipeline.

The development embeds the decision logic of the database scripts under
`mutation-service/database/scripts/`: the variant-type lookup tables, the
clinical-significance heuristics, the composite-key deduplication, the
quote-escaping record assembly, the missing-column precondition check,
the allele-frequency computation, and the size-capped bulk emission.

Python strings are modelled as Lean `String`; Python substring tests
(`sub in s`) as list-infix containment on the character data; Python
`str.lower` as a character-wise `Char.toLower` map (the inputs involved
are ASCII, where the two agree); Python `dict` literals as association
lists consulted with `List.lookup`; the Python `set` of seen keys as the
list of keys registered so far; SQL emission to stdout as the list of
assembled records.  Absent optional values are `Option.none`.
-/

/-- Python substring test: `sub in s` holds iff the character data of `sub`
is an infix of the character data of `s`. -/
def containsSub (s sub : String) : Bool :=
  decide (sub.data <:+: s.data)

/-- Python `str.lower`, character-wise (agrees with Python on ASCII data). -/
def lowerStr (s : String) : String :=
  ⟨s.data.map Char.toLower⟩

/-- Python `s.replace("\x27", "\x27\x27")`: double every embedded single
quote, used by the scripts to build SQL-safe text. -/
def escapeSql (s : String) : String :=
  ⟨s.data.flatMap (fun c => if c = '\x27' then [c, c] else [c])⟩

/-- One processing pass of the dedup loop: `seen` is the set of keys
registered so far; a record whose key is already in `seen` is skipped,
otherwise its key is registered and the record is accepted. -/
def dedupAux {α K : Type} [DecidableEq K] (key : α → K) :
    List α → List K → List α
  | [], _ => []
  | r :: rs, seen =>
    if key r ∈ seen then dedupAux key rs seen
    else r :: dedupAux key rs (key r :: seen)

/-- The records accepted by the deduplicator in one run, starting from the
empty `seen` set. -/
def dedupRun {α K : Type} [DecidableEq K] (key : α → K) (l : List α) : List α :=
  dedupAux key l []

namespace ParseMaf

/-! Embeddings from `parse_maf_to_sql.py`. -/

/-- The `mapping` dict of `map_variant_class`. -/
def variant_class_table : List (String × String) :=
  [("Missense_Mutation", "SNV"),
   ("Nonsense_Mutation", "SNV"),
   ("Silent", "SNV"),
   ("Frame_Shift_Del", "deletion"),
   ("Frame_Shift_Ins", "insertion"),
   ("In_Frame_Del", "deletion"),
   ("In_Frame_Ins", "insertion"),
   ("Splice_Site", "SNV"),
   ("Translation_Start_Site", "SNV"),
   ("Nonstop_Mutation", "SNV")]

/-- `map_variant_class`: `mapping.get(variant_class, "SNV")`. -/
def map_variant_class (variant_class : String) : String :=
  (variant_class_table.lookup variant_class).getD "SNV"

/-- The `actionable_genes` list of `determine_clinical_significance`. -/
def actionable_genes : List String :=
  ["EGFR", "ALK", "ROS1", "BRAF", "MET", "RET", "NTRK1", "NTRK2", "NTRK3", "ERBB2"]

/-- The `hotspots` list of `determine_clinical_significance`. -/
def hotspots : List String :=
  ["L858R", "T790M", "V600E", "G12", "G13", "Q61", "del", "ins"]

/-- `determine_clinical_significance(gene, protein_change, mut_type)` from
`parse_maf_to_sql.py`. -/
def determine_clinical_significance (gene protein_change mut_type : String) : String :=
  if gene ∈ actionable_genes then
    if hotspots.any (fun hotspot => containsSub protein_change hotspot) then
      "Pathogenic"
    else if mut_type ∈ ["deletion", "insertion"] then
      "Likely Pathogenic"
    else
      "Uncertain Significance"
  else if gene = "TP53" then
    if mut_type ∈ ["deletion", "SNV"] then
      "Likely Pathogenic"
    else
      "Uncertain Significance"
  else
    "Uncertain Significance"

/-- State of one of the `t_alt_count` / `t_ref_count` fields of a row:
the column is absent (Python `row.get` then yields the default `0`), holds
an integer literal, or holds text that `int(...)` rejects (the `except`
path). -/
inductive CountField where
  | absent : CountField
  | intVal : Int → CountField
  | nonInt : CountField
deriving DecidableEq

/-- The integer the script obtains for a readable field. -/
def CountField.value : CountField → Int
  | .absent => 0
  | .intVal n => n
  | .nonInt => 0

/-- Python `round(x, 4)` over the rationals: round to four decimal places
(ties, which do not arise in the facts proved here, rounded per `round`). -/
def round4 (q : ℚ) : ℚ :=
  ((round (q * 10000) : ℤ) : ℚ) / 10000

/-- The VAF block of `parse_maf_file`: `int()` failure on either count
aborts to `None`; otherwise `round(t_alt / (t_alt + t_ref), 4)` when the
total is positive, else `None`. -/
def computeVaf (altCount refCount : CountField) : Option ℚ :=
  match altCount, refCount with
  | .nonInt, _ => none
  | _, .nonInt => none
  | a, r =>
    if a.value + r.value > 0 then
      some (round4 ((a.value : ℚ) / ((a.value : ℚ) + (r.value : ℚ))))
    else
      none

/-- The emission of the field in `generate_sql`:
`str(mut["vaf"]) if mut["vaf"] else "NULL"` — a missing VAF prints `NULL`,
and so does a computed `0.0`, since `0.0` is falsy.  `none` models the
`NULL` token, `some q` a printed number. -/
def vafEmitted (vaf : Option ℚ) : Option ℚ :=
  match vaf with
  | none => none
  | some q => if q = 0 then none else some q

/-- The cap of `generate_sql`:
`max_mutations = min(len(mutations), 10000)` then `mutations[:max_mutations]`. -/
def emittedRecords {α : Type} (muts : List α) : List α :=
  muts.take 10000

/-- One MAF data row after field extraction (`row.get` with the defaults
of `parse_maf_file`, the chromosome already stripped of its `chr`
prefix); the two read-count columns are in their `CountField` states. -/
structure MafRow where
  gene : String
  chromosome : String
  position : String
  ref_allele : String
  alt_allele : String
  variant_class : String
  protein_change : String
  sample_id : String
  altCount : CountField
  refCount : CountField
deriving DecidableEq

/-- The dict appended to `mutations` for one kept row of `parse_maf_file`. -/
structure MafMutation where
  gene : String
  chromosome : String
  position : String
  ref_allele : String
  alt_allele : String
  mutation_type : String
  protein_change : String
  sample_id : String
  clinical_sig : String
  vaf : Option ℚ
deriving DecidableEq

/-- The per-row body of the `parse_maf_file` loop: compute the VAF, map
the variant class, classify, skip the row when the gene text is empty or
Unknown or the chromosome text is empty, truncate the allele and protein
texts, and append the record — there is no deduplication check anywhere
in this script. -/
def processRow (r : MafRow) : Option MafMutation :=
  let vaf := computeVaf r.altCount r.refCount
  let mutation_type := map_variant_class r.variant_class
  let clinical_sig :=
    determine_clinical_significance r.gene r.protein_change mutation_type
  if r.gene = "" ∨ r.gene = "Unknown" ∨ r.chromosome = "" then none
  else some
    { gene := r.gene
      chromosome := r.chromosome
      position := r.position
      ref_allele := if r.ref_allele = "" then "N" else r.ref_allele.take 100
      alt_allele := if r.alt_allele = "" then "N" else r.alt_allele.take 100
      mutation_type := mutation_type
      protein_change :=
        if r.protein_change = "" then "" else r.protein_change.take 50
      sample_id := r.sample_id
      clinical_sig := clinical_sig
      vaf := vaf }

/-- The `mutations` list of one MAF run: every kept row is appended in
input order, duplicates included. -/
def parse_maf_mutations (rows : List MafRow) : List MafMutation :=
  rows.filterMap processRow

/-- The six identity fields of an assembled MAF record, in the order of
the dedup key used by the other scripts. -/
def mafTuple (m : MafMutation) :
    String × String × String × String × String × String :=
  (m.gene, m.chromosome, m.position, m.ref_allele, m.alt_allele, m.sample_id)

end ParseMaf

namespace ParseTcga

/-! Embeddings from `parse_tcga_mutations_complete.py`. -/

/-- The `mapping` dict of `map_variant_type`. -/
def variant_type_table : List (String × String) :=
  [("Missense_Mutation", "SNV"),
   ("Nonsense_Mutation", "SNV"),
   ("Silent", "SNV"),
   ("Frame_Shift_Del", "deletion"),
   ("Frame_Shift_Ins", "insertion"),
   ("In_Frame_Del", "deletion"),
   ("In_Frame_Ins", "insertion"),
   ("Splice_Site", "SNV"),
   ("Translation_Start_Site", "SNV"),
   ("Nonstop_Mutation", "SNV"),
   ("RNA", "SNV"),
   ("3\x27UTR", "SNV"),
   ("5\x27UTR", "SNV"),
   ("Intron", "SNV"),
   ("IGR", "SNV")]

/-- `map_variant_type`: `mapping.get(variant_class, "SNV")`. -/
def map_variant_type (variant_class : String) : String :=
  (variant_type_table.lookup variant_class).getD "SNV"

/-- The `actionable` dict (gene to its hotspot substrings). -/
def actionable : List (String × List String) :=
  [("EGFR", ["L858R", "T790M", "L861Q", "G719", "S768I", "del19"]),
   ("KRAS", ["G12C", "G12D", "G12V", "G13"]),
   ("ALK", ["fusion"]),
   ("ROS1", ["fusion"]),
   ("BRAF", ["V600E"]),
   ("MET", ["exon14"]),
   ("RET", ["fusion"]),
   ("ERBB2", ["insertion"]),
   ("NTRK1", ["fusion"])]

/-- The `tumor_suppressors` list. -/
def tumor_suppressors : List String :=
  ["TP53", "STK11", "KEAP1", "RB1", "CDKN2A", "PTEN", "NF1", "SMARCA4"]

/-- `determine_clinical_significance(gene, protein_change)` from
`parse_tcga_mutations_complete.py`. -/
def determine_clinical_significance (gene protein_change : String) : String :=
  match actionable.lookup gene with
  | some geneHotspots =>
    if geneHotspots.any (fun hotspot =>
        containsSub (lowerStr protein_change) (lowerStr hotspot)) then
      "Pathogenic"
    else if containsSub (lowerStr protein_change) "del" ||
            containsSub (lowerStr protein_change) "ins" then
      "Likely Pathogenic"
    else
      "Uncertain Significance"
  | none =>
    if gene ∈ tumor_suppressors then
      if containsSub protein_change "Ter" || containsSub protein_change "*" ||
         containsSub protein_change "fs" then
        "Pathogenic"
      else
        "Likely Pathogenic"
    else
      "Uncertain Significance"

/-! The record pipeline of `parse_tcga_mutations`: per-row field extraction
with the per-record skip rules, composite-key deduplication, SQL-safe
assembly, and emission capped at 1000 records.  A raw row is modelled after
the field-mapper stage: the eight extracted (stripped) column texts, with
`Start_Position` already passed through `int(...)` — `none` standing for the
`ValueError` path that makes the script skip the line. -/

/-- The eight fields extracted from one data line. -/
structure RawRecord where
  gene_symbol : String
  chromosome : String
  start_position : Option Int
  ref_allele : String
  alt_allele : String
  variant_class : String
  sample_id : String
  protein_change : String
deriving DecidableEq

/-- A row that survived the per-record skip rules. -/
structure ValidRecord where
  gene_symbol : String
  chromosome : String
  position : Int
  ref_allele : String
  alt_allele : String
  variant_class : String
  sample_id : String
  protein_change : String
deriving DecidableEq

/-- Row validation: the `ValueError` skip on a non-numeric position and the
`if not gene_symbol or gene_symbol == "Unknown" or not chromosome: continue`
skip. -/
def toValid (r : RawRecord) : Option ValidRecord :=
  match r.start_position with
  | none => none
  | some pos =>
    if r.gene_symbol = "" ∨ r.gene_symbol = "Unknown" ∨ r.chromosome = "" then none
    else some ⟨r.gene_symbol, r.chromosome, pos, r.ref_allele, r.alt_allele,
               r.variant_class, r.sample_id, r.protein_change⟩

/-- The six identity fields of a record, in dedup-key order. -/
def recTuple (v : ValidRecord) :
    String × String × Int × String × String × String :=
  (v.gene_symbol, v.chromosome, v.position, v.ref_allele, v.alt_allele, v.sample_id)

/-- The composite key: the six identity fields joined with an underscore,
as built by the f-string of the script. -/
def keyOfTuple (t : String × String × Int × String × String × String) : String :=
  t.1 ++ "_" ++ t.2.1 ++ "_" ++ toString t.2.2.1 ++ "_" ++ t.2.2.2.1 ++ "_" ++
    t.2.2.2.2.1 ++ "_" ++ t.2.2.2.2.2

/-- The `unique_key` of a validated row. -/
def unique_key (v : ValidRecord) : String :=
  keyOfTuple (recTuple v)

/-- The canonical record appended to `mutations` (the SQL-safe dict). -/
structure AssembledRecord where
  gene_name : String
  gene_symbol : String
  chromosome : String
  position : Int
  reference_allele : String
  alternate_allele : String
  mutation_type : String
  patient_id : String
  sample_id : String
  protein_change : String
  clinical_sig : String
deriving DecidableEq

/-- Record assembly: quote-escaping of gene, alleles, sample and protein
change (the chromosome text is used as-is), plus the two classifier
outputs. -/
def assemble (v : ValidRecord) : AssembledRecord :=
  { gene_name := escapeSql v.gene_symbol
    gene_symbol := escapeSql v.gene_symbol
    chromosome := v.chromosome
    position := v.position
    reference_allele := escapeSql v.ref_allele
    alternate_allele := escapeSql v.alt_allele
    mutation_type := map_variant_type v.variant_class
    patient_id := escapeSql v.sample_id
    sample_id := escapeSql v.sample_id
    protein_change := if v.protein_change ≠ "" then escapeSql v.protein_change else ""
    clinical_sig := determine_clinical_significance v.gene_symbol v.protein_change }

/-- The six identity fields of an assembled record. -/
def assembledTuple (a : AssembledRecord) :
    String × String × Int × String × String × String :=
  (a.gene_symbol, a.chromosome, a.position, a.reference_allele,
   a.alternate_allele, a.sample_id)

/-- The action of assembly on the six identity fields. -/
def escTuple (t : String × String × Int × String × String × String) :
    String × String × Int × String × String × String :=
  (escapeSql t.1, t.2.1, t.2.2.1, escapeSql t.2.2.2.1, escapeSql t.2.2.2.2.1,
   escapeSql t.2.2.2.2.2)

/-- The records accepted by the deduplicator in one run. -/
def accepted (rows : List RawRecord) : List ValidRecord :=
  dedupRun unique_key (rows.filterMap toValid)

/-- The `mutations` list assembled in one run. -/
def mutations (rows : List RawRecord) : List AssembledRecord :=
  (accepted rows).map assemble

/-- The `required_columns` list checked against the header. -/
def required_columns : List String :=
  ["Hugo_Symbol", "Chromosome", "Start_Position", "Reference_Allele",
   "Tumor_Seq_Allele2", "Variant_Classification", "Tumor_Sample_Barcode",
   "HGVSp_Short"]

/-- `missing_columns = [col for col in required_columns if col not in header]`. -/
def missing_columns (header : List String) : List String :=
  required_columns.filter (fun col => decide (col ∉ header))

/-- Outcome of one run: the process exit code, the fatal error reports
written to stderr (each carrying the list of missing column names it
prints), and the records emitted into the insert statement. -/
structure RunOutcome where
  exitCode : Nat
  errorReports : List (List String)
  emitted : List AssembledRecord

/-- `parse_tcga_mutations`: fail fast with exit status 1 and a single
missing-columns report when any required column is absent from the header;
otherwise process rows and emit `mutations[:1000]`. -/
def parse_tcga_mutations (header : List String) (rows : List RawRecord) : RunOutcome :=
  if missing_columns header ≠ [] then
    { exitCode := 1, errorReports := [missing_columns header], emitted := [] }
  else
    { exitCode := 0, errorReports := [], emitted := (mutations rows).take 1000 }

end ParseTcga

namespace ParseCbio

/-! Embeddings from `parse_cbioportal_to_sql.py`. -/

/-- The `type_mapping` dict of `map_mutation_type`. -/
def type_mapping : List (String × String) :=
  [("Missense_Mutation", "SNV"),
   ("Nonsense_Mutation", "SNV"),
   ("Frame_Shift_Del", "deletion"),
   ("Frame_Shift_Ins", "insertion"),
   ("In_Frame_Del", "deletion"),
   ("In_Frame_Ins", "insertion"),
   ("Splice_Site", "SNV"),
   ("Translation_Start_Site", "SNV"),
   ("Fusion", "fusion"),
   ("Silent", "SNV")]

/-- `map_mutation_type`: `type_mapping.get(cbio_type, "SNV")`. -/
def map_mutation_type (cbio_type : String) : String :=
  (type_mapping.lookup cbio_type).getD "SNV"

/-- `determine_clinical_significance(gene, protein_change)` from
`parse_cbioportal_to_sql.py`. -/
def determine_clinical_significance (gene protein_change : String) : String :=
  if gene ∈ ["EGFR", "KRAS", "ALK", "ROS1", "BRAF", "MET", "RET", "NTRK1", "ERBB2"] then
    if containsSub protein_change "L858R" || containsSub protein_change "G12" ||
       containsSub protein_change "T790M" then
      "Pathogenic"
    else if containsSub (lowerStr protein_change) "del" ||
            containsSub (lowerStr protein_change) "ins" then
      "Likely Pathogenic"
    else
      "Uncertain Significance"
  else
    "Uncertain Significance"

/-- One mutation object after field extraction (`gene.hugoGeneSymbol`,
`chr` with the `chr` prefix stripped, `startPosition`, `referenceAllele`,
`variantAllele`, `mutationType`, `sampleId`, `proteinChange`). -/
structure CbioRecord where
  gene : String
  chromosome : String
  position : Int
  ref_allele : String
  alt_allele : String
  mutation_type_raw : String
  sample_id : String
  protein_change : String
deriving DecidableEq

/-- The `unique_key` f-string of `parse_mutation_json`. -/
def unique_key (r : CbioRecord) : String :=
  r.gene ++ "_" ++ r.chromosome ++ "_" ++ toString r.position ++ "_" ++
    r.ref_allele ++ "_" ++ r.alt_allele ++ "_" ++ r.sample_id

/-- The SQL value tuple appended for one accepted record. -/
def sqlValue (r : CbioRecord) : String :=
  "  (\x27" ++ r.gene ++ "\x27, \x27" ++ r.chromosome ++ "\x27, " ++
    toString r.position ++ ", \x27" ++ r.ref_allele ++ "\x27, \x27" ++
    r.alt_allele ++ "\x27, \x27" ++ map_mutation_type r.mutation_type_raw ++
    "\x27, \x27" ++ r.sample_id ++ "\x27, \x27Lung Adenocarcinoma\x27, \x27" ++
    determine_clinical_significance r.gene r.protein_change ++ "\x27, NULL)"

/-- The `mutations` list of one run: the SQL value tuples of the records
accepted by the deduplicator. -/
def mutations (l : List CbioRecord) : List String :=
  (dedupRun unique_key l).map sqlValue

/-- The value tuples actually printed: `mutations[:1000]`. -/
def emitted (l : List CbioRecord) : List String :=
  (mutations l).take 1000

end ParseCbio

namespace FetchReal

/-! Embedding of the inline clinical-significance block of `generate_sql`
in `fetch_real_mutations.py`. -/

/-- The inline actionable-gene list. -/
def actionable_genes : List String :=
  ["EGFR", "KRAS", "ALK", "BRAF", "ROS1", "MET", "RET"]

/-- The inline hotspot list. -/
def hotspots : List String :=
  ["L858R", "G12", "T790M", "V600E"]

/-- The inline clinical-significance conditional of `generate_sql`:
an actionable gene without a hotspot match falls to Likely Pathogenic,
with no Uncertain Significance branch for actionable genes. -/
def clinical_significance (gene protein_change : String) : String :=
  if gene ∈ actionable_genes then
    if hotspots.any (fun hotspot => containsSub protein_change hotspot) then
      "Pathogenic"
    else
      "Likely Pathogenic"
  else
    "Uncertain Significance"

end FetchReal

/-! ### Concrete inputs used by scenario proofs -/

/-- A validated TCGA row (a TP53 missense observation). -/
def sampleRowA : ParseTcga.ValidRecord :=
  ⟨"TP53", "17", 7578406, "C", "A", "Missense_Mutation", "TCGA-05-4244-01", "p.R175H"⟩

/-- The same observation in a different sample. -/
def sampleRowB : ParseTcga.ValidRecord :=
  ⟨"TP53", "17", 7578406, "C", "A", "Missense_Mutation", "TCGA-05-4249-01", "p.R175H"⟩

/-- A validated row whose identity fields differ from `collisionRowB` but
whose composite key coincides with it: the underscore of the gene text
shifts into the chromosome text. -/
def collisionRowA : ParseTcga.ValidRecord :=
  ⟨"A", "B_1", 3, "G", "T", "Missense_Mutation", "S1", "p.X1Y"⟩

/-- The colliding partner of `collisionRowA`. -/
def collisionRowB : ParseTcga.ValidRecord :=
  ⟨"A_B", "1", 3, "G", "T", "Missense_Mutation", "S1", "p.X1Y"⟩

/-- A raw row whose chromosome text carries an embedded single quote. -/
def quoteChromosomeRow : ParseTcga.RawRecord :=
  ⟨"KRAS", "7\x27", some 117, "G", "T", "Missense_Mutation", "S-01", "p.G12C"⟩

/-- A family of cBioPortal records with pairwise distinct sample ids (and
hence pairwise distinct composite keys). -/
def capRecord (i : Nat) : ParseCbio.CbioRecord :=
  ⟨"G", "1", 0, "A", "T", "Missense_Mutation", ⟨List.replicate i 'a'⟩, ""⟩

/-- A run of 1001 pairwise distinct records, one more than the emission
cap. -/
def capInput : List ParseCbio.CbioRecord :=
  (List.range 1001).map capRecord

/-- A MAF row whose observation appears twice in the input file: the same
six identity fields on both occurrences. -/
def dupMafRow : ParseMaf.MafRow :=
  ⟨"TP53", "17", "7578406", "C", "A", "Missense_Mutation", "p.R175H",
   "TCGA-05-4244-01", .intVal 30, .intVal 70⟩

/-! ### String facts used for keys and escaping -/

/-- Character data of a string concatenation. -/
theorem string_data_append (s t : String) : (s ++ t).data = s.data ++ t.data := by
  cases s; cases t; rfl

/-- Strings with equal character data are equal. -/
theorem string_eq_of_data_eq {s t : String} (h : s.data = t.data) : s = t := by
  cases s; cases t; exact congrArg String.mk h

/-- Left cancellation for string concatenation. -/
theorem string_append_cancel_left {a b c : String} (h : a ++ b = a ++ c) : b = c := by
  have hd : a.data ++ b.data = a.data ++ c.data := by
    rw [← string_data_append, ← string_data_append, h]
  exact string_eq_of_data_eq (List.append_cancel_left hd)

/-- Quote doubling leaves the head character in place:
the escape of `c :: cs` always starts with `c`. -/
theorem escapeSql_cons (c : Char) (cs : List Char) :
    (escapeSql ⟨c :: cs⟩).data =
      c :: (if c = '\x27' then c :: (escapeSql ⟨cs⟩).data else (escapeSql ⟨cs⟩).data) := by
  by_cases hc : c = '\x27' <;> simp [escapeSql, hc]

/-- Quote doubling is injective, so an escaped value can be reversed to the
original. -/
theorem escapeSql_injective : Function.Injective escapeSql := by
  have key : ∀ l m : List Char, escapeSql ⟨l⟩ = escapeSql ⟨m⟩ → l = m := by
    intro l
    induction l with
    | nil =>
      intro m h
      cases m with
      | nil => rfl
      | cons c cs =>
        exfalso
        have hd := congrArg String.data h
        rw [escapeSql_cons] at hd
        simp [escapeSql] at hd
    | cons c cs ih =>
      intro m h
      cases m with
      | nil =>
        exfalso
        have hd := congrArg String.data h
        rw [escapeSql_cons] at hd
        simp [escapeSql] at hd
      | cons d ds =>
        have hd := congrArg String.data h
        rw [escapeSql_cons, escapeSql_cons] at hd
        have hcd : c = d := List.head_eq_of_cons_eq hd
        subst hcd
        have htail := List.tail_eq_of_cons_eq hd
        by_cases hc : c = '\x27'
        · simp only [if_pos hc] at htail
          have := List.tail_eq_of_cons_eq htail
          exact congrArg (c :: ·) (ih ds (string_eq_of_data_eq this))
        · simp only [if_neg hc] at htail
          exact congrArg (c :: ·) (ih ds (string_eq_of_data_eq htail))
  intro s t h
  cases s; cases t
  exact congrArg String.mk (key _ _ h)

/-- Quote doubling exactly doubles the number of embedded quote characters,
so no lone quote can survive into the serialized statement. -/
theorem escapeSql_count_quote (s : String) :
    (escapeSql s).data.count '\x27' = 2 * s.data.count '\x27' := by
  cases s with
  | mk l =>
    induction l with
    | nil => rfl
    | cons c cs ih =>
      have h := escapeSql_cons c cs
      by_cases hc : c = '\x27'
      · subst hc
        simp only [if_pos rfl] at h
        simp [escapeSql] at h ⊢
        simp [escapeSql] at ih
        omega
      · simp only [if_neg hc] at h
        simp [escapeSql, hc] at h ⊢
        simp [escapeSql] at ih
        simpa [List.count_cons, hc] using ih

/-- A `List.lookup` on a key that is absent from the table yields `none`
(the Python `dict.get` default path). -/
theorem lookup_eq_none_of_not_mem_keys {α β : Type} [BEq α] [LawfulBEq α]
    (l : List (α × β)) (k : α) (h : k ∉ l.map Prod.fst) : l.lookup k = none := by
  induction l with
  | nil => rfl
  | cons p t ih =>
    simp only [List.map_cons, List.mem_cons, not_or] at h
    simp only [List.lookup, beq_eq_false_iff_ne.mpr h.1, ih h.2]

/-! ### Deduplicator theory -/

/-- Keys of accepted records are distinct and avoid the initial `seen` set. -/
theorem dedupAux_keys_nodup {α K : Type} [DecidableEq K] (key : α → K) :
    ∀ (l : List α) (seen : List K),
      ((dedupAux key l seen).map key).Nodup ∧
      ∀ r ∈ dedupAux key l seen, key r ∉ seen := by
  intro l
  induction l with
  | nil => intro seen; simp [dedupAux]
  | cons r rs ih =>
    intro seen
    by_cases h : key r ∈ seen
    · have := ih seen
      simpa [dedupAux, h] using this
    · have hrec := ih (key r :: seen)
      constructor
      · simp only [dedupAux, if_neg h, List.map_cons, List.nodup_cons]
        refine ⟨?_, hrec.1⟩
        intro hmem
        rcases List.mem_map.mp hmem with ⟨s, hs, hkey⟩
        exact hrec.2 s hs (by simp [hkey])
      · intro s hs
        simp only [dedupAux, if_neg h, List.mem_cons] at hs
        rcases hs with rfl | hs
        · exact h
        · intro hseen
          exact hrec.2 s hs (by simp [hseen])

/-- A record whose key was already produced by an earlier record of the run
contributes nothing: the run behaves as if the later record were absent. -/
theorem dedupAux_drop_seen {α K : Type} [DecidableEq K] (key : α → K)
    (s : α) :
    ∀ (pre post : List α) (seen : List K),
      (key s ∈ seen ∨ key s ∈ pre.map key) →
      dedupAux key (pre ++ s :: post) seen = dedupAux key (pre ++ post) seen := by
  intro pre
  induction pre with
  | nil =>
    intro post seen h
    simp only [List.map_nil, List.not_mem_nil, or_false] at h
    simp [dedupAux, h]
  | cons p pre ih =>
    intro post seen h
    rw [List.map_cons, List.mem_cons] at h
    by_cases hp : key p ∈ seen
    · simp only [List.cons_append, dedupAux, if_pos hp]
      refine ih post seen ?_
      rcases h with h | h | h
      · exact Or.inl h
      · exact Or.inl (h ▸ hp)
      · exact Or.inr h
    · simp only [List.cons_append, dedupAux, if_neg hp]
      refine congrArg (p :: ·) (ih post (key p :: seen) ?_)
      rcases h with h | h | h
      · exact Or.inl (List.mem_cons_of_mem _ h)
      · exact Or.inl (by simp [h])
      · exact Or.inr h

/-- A run whose records already have pairwise distinct keys (none of them in
the initial `seen` set) is accepted in full. -/
theorem dedupAux_eq_self_of_nodup {α K : Type} [DecidableEq K] (key : α → K) :
    ∀ (l : List α) (seen : List K),
      (l.map key).Nodup → (∀ r ∈ l, key r ∉ seen) →
      dedupAux key l seen = l := by
  intro l
  induction l with
  | nil => intro seen _ _; rfl
  | cons r rs ih =>
    intro seen hnd hout
    simp only [List.map_cons, List.nodup_cons] at hnd
    have hr : key r ∉ seen := hout r (List.mem_cons_self r rs)
    simp only [dedupAux, if_neg hr]
    refine congrArg (r :: ·) (ih (key r :: seen) hnd.2 ?_)
    intro s hs
    simp only [List.mem_cons, not_or]
    exact ⟨fun he => hnd.1 (he ▸ List.mem_map_of_mem key hs),
           hout s (List.mem_cons_of_mem r hs)⟩

/-- The identity-field action of assembly is injective: escaping is
reversible on each component. -/
theorem escTuple_injective : Function.Injective ParseTcga.escTuple := by
  rintro ⟨g1, c1, p1, r1, a1, s1⟩ ⟨g2, c2, p2, r2, a2, s2⟩ h
  simp only [ParseTcga.escTuple, Prod.mk.injEq] at h
  obtain ⟨hg, hc, hp, hr, ha, hs⟩ := h
  simp only [Prod.mk.injEq]
  exact ⟨escapeSql_injective hg, hc, hp, escapeSql_injective hr,
         escapeSql_injective ha, escapeSql_injective hs⟩

/-! ### Claim theorems -/

/-- C9: every raw variant-classification label absent from the fixed
classification lookup table is mapped to SNV, both by `map_variant_class`
of the MAF parser and by `map_variant_type` of the complete TCGA parser. -/
theorem c9_unknown_label_defaults_to_snv :
    (∀ label, label ∉ ParseMaf.variant_class_table.map Prod.fst →
        ParseMaf.map_variant_class label = "SNV") ∧
    (∀ label, label ∉ ParseTcga.variant_type_table.map Prod.fst →
        ParseTcga.map_variant_type label = "SNV") := by
  constructor
  · intro label h
    unfold ParseMaf.map_variant_class
    rw [lookup_eq_none_of_not_mem_keys _ _ h]
    rfl
  · intro label h
    unfold ParseTcga.map_variant_type
    rw [lookup_eq_none_of_not_mem_keys _ _ h]
    rfl

/-- C9 witness: the label Fusion is absent from the MAF table and maps to
SNV; the label Complex_Substitution is absent from the TCGA table and maps
to SNV. -/
theorem c9_unknown_label_defaults_to_snv_witness :
    ("Fusion" ∉ ParseMaf.variant_class_table.map Prod.fst ∧
      ParseMaf.map_variant_class "Fusion" = "SNV") ∧
    ("Complex_Substitution" ∉ ParseTcga.variant_type_table.map Prod.fst ∧
      ParseTcga.map_variant_type "Complex_Substitution" = "SNV") :=
  ⟨⟨by decide, c9_unknown_label_defaults_to_snv.1 "Fusion" (by decide)⟩,
   ⟨by decide, c9_unknown_label_defaults_to_snv.2 "Complex_Substitution" (by decide)⟩⟩

/-- C10: the composite key joins the six identity fields with an
underscore and is not injective: `collisionRowA` and `collisionRowB`
differ in their identity tuples yet share one key, so the deduplicator
suppresses the second record of the pair although it is not a duplicate
under the tuple definition. -/
theorem c10_join_key_collision :
    ParseTcga.unique_key collisionRowA = ParseTcga.unique_key collisionRowB ∧
    ParseTcga.recTuple collisionRowA ≠ ParseTcga.recTuple collisionRowB ∧
    dedupRun ParseTcga.unique_key [collisionRowA, collisionRowB] = [collisionRowA] := by
  refine ⟨by decide, by decide, ?_⟩
  decide

/-- C2: an actionable gene whose protein change contains one of the
hotspot substrings known for it is classified Pathogenic, in the MAF
parser (shared hotspot list) and in the complete TCGA parser (per-gene
hotspot lists, compared case-insensitively); in particular the label
Missense_Mutation maps to SNV and (EGFR, L858R) is Pathogenic. -/
theorem c2_actionable_hotspot_pathogenic :
    (∀ gene protein_change mut_type,
        gene ∈ ParseMaf.actionable_genes →
        (∃ h ∈ ParseMaf.hotspots, containsSub protein_change h = true) →
        ParseMaf.determine_clinical_significance gene protein_change mut_type =
          "Pathogenic") ∧
    (∀ gene geneHotspots protein_change,
        ParseTcga.actionable.lookup gene = some geneHotspots →
        (∃ h ∈ geneHotspots,
          containsSub (lowerStr protein_change) (lowerStr h) = true) →
        ParseTcga.determine_clinical_significance gene protein_change =
          "Pathogenic") ∧
    ParseMaf.map_variant_class "Missense_Mutation" = "SNV" ∧
    ParseMaf.determine_clinical_significance "EGFR" "L858R" "SNV" = "Pathogenic" := by
  refine ⟨?_, ?_, by decide, by decide⟩
  · intro gene pc mt hg hex
    unfold ParseMaf.determine_clinical_significance
    rw [if_pos hg, if_pos (List.any_eq_true.mpr hex)]
  · intro gene hs pc hl hex
    unfold ParseTcga.determine_clinical_significance
    rw [hl]
    exact if_pos (List.any_eq_true.mpr hex)

/-- C2 witness: EGFR is actionable, L858R is a hotspot contained in the
protein change, and the classification at (EGFR, L858R, SNV) is
Pathogenic. -/
theorem c2_actionable_hotspot_pathogenic_witness :
    ("EGFR" ∈ ParseMaf.actionable_genes ∧
      (∃ h ∈ ParseMaf.hotspots, containsSub "L858R" h = true)) ∧
    ParseMaf.determine_clinical_significance "EGFR" "L858R" "SNV" = "Pathogenic" :=
  ⟨⟨by decide, by decide⟩,
   c2_actionable_hotspot_pathogenic.1 "EGFR" "L858R" "SNV" (by decide) (by decide)⟩

/-- C1 counterexample: TP53 is in the fixed tumor-suppressor set and not
in the actionable set, and R175Ter carries the truncation marker Ter, yet
the clinical-significance function of `parse_maf_to_sql.py` returns
Likely Pathogenic for it, not Pathogenic as the claim states. -/
theorem c1_maf_truncation_counterexample :
    "TP53" ∈ ParseTcga.tumor_suppressors ∧
    "TP53" ∉ ParseMaf.actionable_genes ∧
    containsSub "R175Ter" "Ter" = true ∧
    ParseMaf.determine_clinical_significance "TP53" "R175Ter" "SNV" =
      "Likely Pathogenic" ∧
    ParseMaf.determine_clinical_significance "TP53" "R175Ter" "SNV" ≠
      "Pathogenic" := by
  refine ⟨by decide, by decide, by decide, by decide, by decide⟩

/-- C1 (amended): in the complete TCGA parser, a gene of the fixed
tumor-suppressor set that is not an actionable gene is classified
Pathogenic exactly when the protein change carries a truncation signal
(Ter, a stop-codon star, or fs), and Likely Pathogenic otherwise; in
particular (TP53, R175Ter) is Pathogenic. -/
theorem c1_tumor_suppressor_truncation :
    (∀ gene protein_change,
        gene ∈ ParseTcga.tumor_suppressors →
        gene ∉ ParseTcga.actionable.map Prod.fst →
        ((containsSub protein_change "Ter" || containsSub protein_change "*" ||
            containsSub protein_change "fs") = true →
          ParseTcga.determine_clinical_significance gene protein_change =
            "Pathogenic") ∧
        ((containsSub protein_change "Ter" || containsSub protein_change "*" ||
            containsSub protein_change "fs") = false →
          ParseTcga.determine_clinical_significance gene protein_change =
            "Likely Pathogenic")) ∧
    ParseTcga.determine_clinical_significance "TP53" "R175Ter" = "Pathogenic" := by
  refine ⟨?_, by decide⟩
  intro gene pc hts hact
  have hl : ParseTcga.actionable.lookup gene = none :=
    lookup_eq_none_of_not_mem_keys _ _ hact
  unfold ParseTcga.determine_clinical_significance
  simp only [hl]
  rw [if_pos hts]
  constructor
  · intro htr
    rw [if_pos htr]
  · intro htr
    rw [if_neg (by simp [htr])]

/-- C1 witness: STK11 is a non-actionable tumor suppressor and L50fs has a
truncation signal; the amended rule gives Pathogenic there. -/
theorem c1_tumor_suppressor_truncation_witness :
    ("STK11" ∈ ParseTcga.tumor_suppressors ∧
      "STK11" ∉ ParseTcga.actionable.map Prod.fst ∧
      (containsSub "L50fs" "Ter" || containsSub "L50fs" "*" ||
        containsSub "L50fs" "fs") = true) ∧
    ParseTcga.determine_clinical_significance "STK11" "L50fs" = "Pathogenic" :=
  ⟨⟨by decide, by decide, by decide⟩,
   (c1_tumor_suppressor_truncation.1 "STK11" "L50fs" (by decide) (by decide)).1
     (by decide)⟩

/-- C7 counterexample: EGFR is in the actionable list of
`fetch_real_mutations.py`, Q787Q matches none of its hotspot substrings,
yet its inline clinical-significance block returns Likely Pathogenic, not
Uncertain Significance as the claim states. -/
theorem c7_fetchreal_counterexample :
    "EGFR" ∈ FetchReal.actionable_genes ∧
    (∀ h ∈ FetchReal.hotspots, containsSub "Q787Q" h = false) ∧
    FetchReal.clinical_significance "EGFR" "Q787Q" = "Likely Pathogenic" ∧
    FetchReal.clinical_significance "EGFR" "Q787Q" ≠ "Uncertain Significance" := by
  refine ⟨by decide, by decide, by decide, by decide⟩

/-- C7 (amended): in the MAF parser, an actionable gene whose protein
change contains no hotspot substring and whose mutation type is neither
deletion nor insertion is classified Uncertain Significance; in
particular (EGFR, Q787Q, SNV) is Uncertain Significance.  (The inline
classifier of `fetch_real_mutations.py` instead returns Likely Pathogenic
for every actionable gene without a hotspot match.) -/
theorem c7_actionable_without_hotspot :
    (∀ gene protein_change mut_type,
        gene ∈ ParseMaf.actionable_genes →
        (∀ h ∈ ParseMaf.hotspots, containsSub protein_change h = false) →
        mut_type ≠ "deletion" → mut_type ≠ "insertion" →
        ParseMaf.determine_clinical_significance gene protein_change mut_type =
          "Uncertain Significance") ∧
    ParseMaf.determine_clinical_significance "EGFR" "Q787Q" "SNV" =
      "Uncertain Significance" := by
  refine ⟨?_, by decide⟩
  intro gene pc mt hg hno hd hi
  unfold ParseMaf.determine_clinical_significance
  rw [if_pos hg]
  rw [if_neg (by
    simp only [List.any_eq_true, not_exists]
    intro h
    simp only [not_and]
    intro hh
    simp [hno h hh])]
  rw [if_neg (by simp [hd, hi])]

/-- C7 witness: EGFR is actionable, Q787Q contains no hotspot substring,
SNV is neither deletion nor insertion, and the classification is
Uncertain Significance. -/
theorem c7_actionable_without_hotspot_witness :
    ("EGFR" ∈ ParseMaf.actionable_genes ∧
      (∀ h ∈ ParseMaf.hotspots, containsSub "Q787Q" h = false) ∧
      ("SNV" : String) ≠ "deletion" ∧ ("SNV" : String) ≠ "insertion") ∧
    ParseMaf.determine_clinical_significance "EGFR" "Q787Q" "SNV" =
      "Uncertain Significance" :=
  ⟨⟨by decide, by decide, by decide, by decide⟩,
   c7_actionable_without_hotspot.1 "EGFR" "Q787Q" "SNV" (by decide) (by decide)
     (by decide) (by decide)⟩

/-- C5: whenever at least one required column is missing from the header,
the run exits with status 1, emits no records, and reports the error
exactly once with the full list of missing column names (the computed
list contains exactly the required names absent from the header). -/
theorem c5_missing_columns_fail_fast :
    ∀ (header : List String) (rows : List ParseTcga.RawRecord),
      ParseTcga.missing_columns header ≠ [] →
      (ParseTcga.parse_tcga_mutations header rows).exitCode = 1 ∧
      (ParseTcga.parse_tcga_mutations header rows).emitted = [] ∧
      (ParseTcga.parse_tcga_mutations header rows).errorReports =
        [ParseTcga.missing_columns header] ∧
      ∀ col, col ∈ ParseTcga.missing_columns header ↔
        col ∈ ParseTcga.required_columns ∧ col ∉ header := by
  intro header rows h
  refine ⟨?_, ?_, ?_, ?_⟩
  · simp [ParseTcga.parse_tcga_mutations, h]
  · simp [ParseTcga.parse_tcga_mutations, h]
  · simp [ParseTcga.parse_tcga_mutations, h]
  · intro col
    simp [ParseTcga.missing_columns, List.mem_filter]

/-- C5 witness: a header holding only Hugo_Symbol misses required columns,
and the run on it aborts with exit status 1, no emitted records, and one
report carrying the seven missing names. -/
theorem c5_missing_columns_fail_fast_witness :
    ParseTcga.missing_columns ["Hugo_Symbol"] ≠ [] ∧
    (ParseTcga.parse_tcga_mutations ["Hugo_Symbol"] []).exitCode = 1 ∧
    (ParseTcga.parse_tcga_mutations ["Hugo_Symbol"] []).emitted = [] ∧
    (ParseTcga.parse_tcga_mutations ["Hugo_Symbol"] []).errorReports =
      [ParseTcga.missing_columns ["Hugo_Symbol"]] :=
  ⟨by decide,
   (c5_missing_columns_fail_fast ["Hugo_Symbol"] [] (by decide)).1,
   (c5_missing_columns_fail_fast ["Hugo_Symbol"] [] (by decide)).2.1,
   (c5_missing_columns_fail_fast ["Hugo_Symbol"] [] (by decide)).2.2.1⟩

/-- C6 counterexample: a run on a row whose chromosome text carries an
embedded single quote emits a record whose chromosome field still carries
the lone quote — quote-escaping (which would double it) was not applied
to this text field before emission. -/
theorem c6_chromosome_not_escaped_counterexample :
    (ParseTcga.parse_tcga_mutations ParseTcga.required_columns
        [quoteChromosomeRow]).emitted.map (fun a => a.chromosome) = ["7\x27"] ∧
    escapeSql "7\x27" = "7\x27\x27" ∧
    ("7\x27" : String) ≠ "7\x27\x27" := by
  refine ⟨?_, by decide, by decide⟩
  decide

/-- C6 (amended): assembly applies quote doubling to the gene, allele,
sample and protein-change texts but passes the chromosome text through
unescaped; quote doubling doubles every embedded quote and is reversible
(injective). -/
theorem c6_escaping_on_assembly :
    (∀ v : ParseTcga.ValidRecord,
        (ParseTcga.assemble v).gene_name = escapeSql v.gene_symbol ∧
        (ParseTcga.assemble v).gene_symbol = escapeSql v.gene_symbol ∧
        (ParseTcga.assemble v).reference_allele = escapeSql v.ref_allele ∧
        (ParseTcga.assemble v).alternate_allele = escapeSql v.alt_allele ∧
        (ParseTcga.assemble v).patient_id = escapeSql v.sample_id ∧
        (ParseTcga.assemble v).sample_id = escapeSql v.sample_id ∧
        (ParseTcga.assemble v).protein_change = escapeSql v.protein_change ∧
        (ParseTcga.assemble v).chromosome = v.chromosome) ∧
    (∀ s, (escapeSql s).data.count '\x27' = 2 * s.data.count '\x27') ∧
    Function.Injective escapeSql := by
  refine ⟨?_, escapeSql_count_quote, escapeSql_injective⟩
  intro v
  refine ⟨rfl, rfl, rfl, rfl, rfl, rfl, ?_, rfl⟩
  by_cases hp : v.protein_change = ""
  · simp [ParseTcga.assemble, hp, escapeSql]
  · simp [ParseTcga.assemble, hp]

/-- C6 witness: on `sampleRowA` the assembled gene symbol is the escape of
the raw gene symbol. -/
theorem c6_escaping_on_assembly_witness :
    (ParseTcga.assemble sampleRowA).gene_symbol = escapeSql "TP53" :=
  (c6_escaping_on_assembly.1 sampleRowA).2.1

/-- Rounding over the rationals is monotone. -/
theorem round_le_round_rat {a b : ℚ} (h : a ≤ b) : round a ≤ round b := by
  rw [round_eq, round_eq]
  exact Int.floor_le_floor (by linarith)

/-- C8 counterexample: the computed VAF at counts (1, 2) is the rounded
value 3333/10000, not the exact ratio 1/3; and a row whose t_ref_count
column is absent while t_alt_count reads 5 emits the value 1, not the
NULL absence marker. -/
theorem c8_allele_frequency_counterexample :
    ParseMaf.computeVaf (.intVal 1) (.intVal 2) = some (3333 / 10000) ∧
    (3333 / 10000 : ℚ) ≠ 1 / 3 ∧
    ParseMaf.vafEmitted (ParseMaf.computeVaf (.intVal 5) .absent) = some 1 ∧
    ParseMaf.vafEmitted (ParseMaf.computeVaf (.intVal 5) .absent) ≠ none := by
  have h1 : ParseMaf.computeVaf (.intVal 1) (.intVal 2) =
      some (ParseMaf.round4 ((1 : ℚ) / 3)) := by
    norm_num [ParseMaf.computeVaf, ParseMaf.CountField.value]
  have h2 : ParseMaf.round4 ((1 : ℚ) / 3) = 3333 / 10000 := by
    norm_num [ParseMaf.round4, round_eq]
  have h3 : ParseMaf.computeVaf (.intVal 5) .absent =
      some (ParseMaf.round4 1) := by
    norm_num [ParseMaf.computeVaf, ParseMaf.CountField.value]
  have h4 : ParseMaf.round4 (1 : ℚ) = 1 := by
    norm_num [ParseMaf.round4, round_eq]
  refine ⟨by rw [h1, h2], by norm_num, ?_, ?_⟩
  · rw [h3, h4]
    norm_num [ParseMaf.vafEmitted]
  · rw [h3, h4]
    simp [ParseMaf.vafEmitted]

/-- C8 (amended): for non-negative integer counts with positive total, the
computed VAF is the ratio rounded to four decimal places and lies in
[0, 1]; when both supporting counts are absent, or either one is
unreadable, the emitted field is the NULL marker; and the emitted field is
never the number zero. -/
theorem c8_allele_frequency_rounded_bounds :
    (∀ a r : ℤ, 0 ≤ a → 0 ≤ r → 0 < a + r →
        ParseMaf.computeVaf (.intVal a) (.intVal r) =
          some (ParseMaf.round4 ((a : ℚ) / ((a : ℚ) + (r : ℚ)))) ∧
        (0 : ℚ) ≤ ParseMaf.round4 ((a : ℚ) / ((a : ℚ) + (r : ℚ))) ∧
        ParseMaf.round4 ((a : ℚ) / ((a : ℚ) + (r : ℚ))) ≤ 1) ∧
    (ParseMaf.vafEmitted (ParseMaf.computeVaf .absent .absent) = none ∧
      (∀ cf, ParseMaf.vafEmitted (ParseMaf.computeVaf .nonInt cf) = none) ∧
      (∀ cf, ParseMaf.vafEmitted (ParseMaf.computeVaf cf .nonInt) = none)) ∧
    ∀ vaf : Option ℚ, ParseMaf.vafEmitted vaf ≠ some 0 := by
  refine ⟨?_, ⟨by decide, ?_, ?_⟩, ?_⟩
  · intro a r ha hr hsum
    have hcast : (0 : ℚ) < (a : ℚ) + (r : ℚ) := by exact_mod_cast hsum
    have hx0 : (0 : ℚ) ≤ (a : ℚ) / ((a : ℚ) + (r : ℚ)) :=
      div_nonneg (by exact_mod_cast ha) (le_of_lt hcast)
    have hx1 : (a : ℚ) / ((a : ℚ) + (r : ℚ)) ≤ 1 := by
      rw [div_le_one hcast]
      have : (0 : ℚ) ≤ (r : ℚ) := by exact_mod_cast hr
      linarith
    have heq : ParseMaf.computeVaf (.intVal a) (.intVal r) =
        if a + r > 0 then
          some (ParseMaf.round4 ((a : ℚ) / ((a : ℚ) + (r : ℚ)))) else none := rfl
    have hlow : (0 : ℤ) ≤ round ((a : ℚ) / ((a : ℚ) + (r : ℚ)) * 10000) := by
      have := round_le_round_rat
        (mul_nonneg hx0 (by norm_num : (0 : ℚ) ≤ 10000))
      simpa using this
    have hhigh : round ((a : ℚ) / ((a : ℚ) + (r : ℚ)) * 10000) ≤ 10000 := by
      have hle : (a : ℚ) / ((a : ℚ) + (r : ℚ)) * 10000 ≤ ((10000 : ℤ) : ℚ) := by
        push_cast
        nlinarith
      have h2 := round_le_round_rat hle
      rwa [round_intCast] at h2
    refine ⟨by rw [heq, if_pos hsum], ?_, ?_⟩
    · exact div_nonneg (by exact_mod_cast hlow) (by norm_num)
    · unfold ParseMaf.round4
      rw [div_le_one (by norm_num : (0 : ℚ) < 10000)]
      exact_mod_cast hhigh
  · intro cf
    cases cf <;> rfl
  · intro cf
    cases cf <;> rfl
  · intro vaf
    cases vaf with
    | none => simp [ParseMaf.vafEmitted]
    | some q =>
      by_cases hq : q = 0 <;> simp [ParseMaf.vafEmitted, hq]

/-- C8 witness: at counts (1, 3), the computed VAF is the rounded quarter
and lies in [0, 1]. -/
theorem c8_allele_frequency_rounded_bounds_witness :
    ((0 : ℤ) ≤ 1 ∧ (0 : ℤ) ≤ 3 ∧ (0 : ℤ) < 1 + 3) ∧
    (ParseMaf.computeVaf (.intVal 1) (.intVal 3) =
      some (ParseMaf.round4 (((1 : ℤ) : ℚ) / (((1 : ℤ) : ℚ) + ((3 : ℤ) : ℚ)))) ∧
     (0 : ℚ) ≤ ParseMaf.round4 (((1 : ℤ) : ℚ) / (((1 : ℤ) : ℚ) + ((3 : ℤ) : ℚ))) ∧
     ParseMaf.round4 (((1 : ℤ) : ℚ) / (((1 : ℤ) : ℚ) + ((3 : ℤ) : ℚ))) ≤ 1) :=
  ⟨⟨by norm_num, by norm_num, by norm_num⟩,
   c8_allele_frequency_rounded_bounds.1 1 3 (by norm_num) (by norm_num) (by norm_num)⟩

/-- C3: in any run, a record whose six identity fields repeat those of an
earlier processed record is excluded (the run is unchanged by deleting
it); the six-field identity tuples of the records assembled in one run
are pairwise distinct; and a two-record run that differs only in the
sample id retains both records. -/
theorem c3_dedup_retains_first_only :
    (∀ (pre mid post : List ParseTcga.ValidRecord) (r s : ParseTcga.ValidRecord),
        ParseTcga.recTuple r = ParseTcga.recTuple s →
        dedupRun ParseTcga.unique_key (pre ++ r :: mid ++ s :: post) =
          dedupRun ParseTcga.unique_key (pre ++ r :: mid ++ post)) ∧
    (∀ rows : List ParseTcga.RawRecord,
        ((ParseTcga.mutations rows).map ParseTcga.assembledTuple).Nodup) ∧
    (∀ r s : ParseTcga.ValidRecord,
        r.gene_symbol = s.gene_symbol → r.chromosome = s.chromosome →
        r.position = s.position → r.ref_allele = s.ref_allele →
        r.alt_allele = s.alt_allele → r.sample_id ≠ s.sample_id →
        dedupRun ParseTcga.unique_key [r, s] = [r, s]) := by
  refine ⟨?_, ?_, ?_⟩
  · intro pre mid post r s htup
    have hkey : ParseTcga.unique_key r = ParseTcga.unique_key s := by
      unfold ParseTcga.unique_key
      rw [htup]
    have hassoc1 : pre ++ r :: mid ++ s :: post = (pre ++ r :: mid) ++ s :: post := by
      simp
    have hassoc2 : pre ++ r :: mid ++ post = (pre ++ r :: mid) ++ post := by
      simp
    rw [dedupRun, dedupRun, hassoc1, hassoc2]
    refine dedupAux_drop_seen _ s _ post [] (Or.inr ?_)
    rw [← hkey]
    exact List.mem_map_of_mem _ (by simp)
  · intro rows
    have hkeys := (dedupAux_keys_nodup ParseTcga.unique_key
        (rows.filterMap ParseTcga.toValid) []).1
    have htup : ((ParseTcga.accepted rows).map ParseTcga.recTuple).Nodup := by
      refine List.Nodup.of_map ParseTcga.keyOfTuple ?_
      rw [List.map_map]
      exact hkeys
    have hmap : (ParseTcga.mutations rows).map ParseTcga.assembledTuple =
        ((ParseTcga.accepted rows).map ParseTcga.recTuple).map ParseTcga.escTuple := by
      unfold ParseTcga.mutations
      rw [List.map_map, List.map_map]
      rfl
    rw [hmap]
    exact htup.map escTuple_injective
  · intro r s hg hc hp hrf hal hs
    have hkey : ParseTcga.unique_key r ≠ ParseTcga.unique_key s := by
      intro he
      apply hs
      simp only [ParseTcga.unique_key, ParseTcga.keyOfTuple, ParseTcga.recTuple] at he
      rw [hg, hc, hp, hrf, hal] at he
      exact string_append_cancel_left he
    have h2 : ¬ ParseTcga.unique_key s = ParseTcga.unique_key r :=
      fun h => hkey h.symm
    simp [dedupRun, dedupAux, h2]

/-- C3 witness: two concrete TP53 rows identical except in the sample id
are both retained by the deduplicator. -/
theorem c3_dedup_retains_first_only_witness :
    (sampleRowA.gene_symbol = sampleRowB.gene_symbol ∧
      sampleRowA.chromosome = sampleRowB.chromosome ∧
      sampleRowA.position = sampleRowB.position ∧
      sampleRowA.ref_allele = sampleRowB.ref_allele ∧
      sampleRowA.alt_allele = sampleRowB.alt_allele ∧
      sampleRowA.sample_id ≠ sampleRowB.sample_id) ∧
    dedupRun ParseTcga.unique_key [sampleRowA, sampleRowB] =
      [sampleRowA, sampleRowB] :=
  ⟨⟨rfl, rfl, rfl, rfl, rfl, by decide⟩,
   c3_dedup_retains_first_only.2.2 sampleRowA sampleRowB rfl rfl rfl rfl rfl
     (by decide)⟩

/-- The composite key of the i-th cap record, in closed form. -/
theorem capRecord_key (i : Nat) :
    ParseCbio.unique_key (capRecord i) =
      "G_1_0_A_T_" ++ (⟨List.replicate i 'a'⟩ : String) := by
  have hbase : ("G" ++ "_" ++ "1" ++ "_" ++ toString (0 : Int) ++ "_" ++ "A" ++
      "_" ++ "T" ++ "_" : String) = "G_1_0_A_T_" := by decide
  show ("G" ++ "_" ++ "1" ++ "_" ++ toString (0 : Int) ++ "_" ++ "A" ++ "_" ++
      "T" ++ "_") ++ (⟨List.replicate i 'a'⟩ : String) = _
  rw [hbase]

/-- Length of the composite key of the i-th cap record. -/
theorem capRecord_key_len (i : Nat) :
    (ParseCbio.unique_key (capRecord i)).data.length = 10 + i := by
  rw [capRecord_key, string_data_append]
  have h10 : ("G_1_0_A_T_" : String).data.length = 10 := by decide
  rw [List.length_append, h10]
  simp

/-- The cap records have pairwise distinct composite keys. -/
theorem capRecord_key_injective :
    Function.Injective (fun i => ParseCbio.unique_key (capRecord i)) := by
  intro i j h
  have hi := capRecord_key_len i
  have hj := capRecord_key_len j
  simp only at h
  rw [h] at hi
  omega

/-- C4 counterexample: a run of 1001 pairwise distinct records is accepted
in full by the deduplicator, yet only 1000 value tuples are emitted — the
total emitted count does not equal the accepted count; the excess record
is dropped, not placed in a further chunk. -/
theorem c4_cap_drops_excess_counterexample :
    (ParseCbio.mutations capInput).length = 1001 ∧
    (ParseCbio.emitted capInput).length = 1000 := by
  have hnodup : (capInput.map ParseCbio.unique_key).Nodup := by
    unfold capInput
    rw [List.map_map]
    exact (List.nodup_range 1001).map capRecord_key_injective
  have hded : dedupRun ParseCbio.unique_key capInput = capInput :=
    dedupAux_eq_self_of_nodup _ _ _ hnodup (fun r _ => List.not_mem_nil _)
  have hlen : (ParseCbio.mutations capInput).length = 1001 := by
    unfold ParseCbio.mutations
    rw [hded, List.length_map]
    unfold capInput
    rw [List.length_map, List.length_range]
  refine ⟨hlen, ?_⟩
  unfold ParseCbio.emitted
  rw [List.length_take, hlen]
  exact min_eq_left (by norm_num)

/-- C4 (amended): the emitters never print more value tuples than their
caps (1000 for the cBioPortal parser, 10000 for the MAF parser), and the
emitted count is the minimum of the accepted count and the cap — records
beyond the cap are dropped rather than chunked. -/
theorem c4_emitted_capped :
    (∀ l : List ParseCbio.CbioRecord,
        (ParseCbio.emitted l).length ≤ 1000 ∧
        (ParseCbio.emitted l).length = min (ParseCbio.mutations l).length 1000) ∧
    (∀ muts : List String,
        (ParseMaf.emittedRecords muts).length ≤ 10000 ∧
        (ParseMaf.emittedRecords muts).length = min muts.length 10000) := by
  constructor
  · intro l
    constructor
    · unfold ParseCbio.emitted
      rw [List.length_take]
      exact min_le_left _ _
    · unfold ParseCbio.emitted
      rw [List.length_take]
      exact min_comm _ _
  · intro muts
    constructor
    · unfold ParseMaf.emittedRecords
      rw [List.length_take]
      exact min_le_left _ _
    · unfold ParseMaf.emittedRecords
      rw [List.length_take]
      exact min_comm _ _

set_option maxRecDepth 4000 in
/-- C3 counterexample: `parse_maf_to_sql.py` performs no deduplication: a
run of that script on two identical rows retains both records in
`mutations` and emits both, so the second record sharing the six-field
tuple of the first is not excluded, and the tuple is not unique across
the records assembled within that run. -/
theorem c3_maf_no_dedup_counterexample :
    (ParseMaf.parse_maf_mutations [dupMafRow, dupMafRow]).length = 2 ∧
    (ParseMaf.emittedRecords
        (ParseMaf.parse_maf_mutations [dupMafRow, dupMafRow])).length = 2 ∧
    ¬ ((ParseMaf.parse_maf_mutations [dupMafRow, dupMafRow]).map
        ParseMaf.mafTuple).Nodup := by
  refine ⟨by decide, by decide, by decide⟩
